import Mathlib

/-
Verification of the USB-printer-to-PTY bridge (`bridge.py`, class
`USBPrinterBridge`).

Shallow embedding: the mutable object state of `USBPrinterBridge` becomes
the structure `BridgeState`; the behaviour of the operating system and of
the USB stack (pyusb) at each external call site is an `Env` value
(deterministic oracle for one session); observable external actions
(USB claims, descriptor closes, log lines, byte transfers) are recorded
in a `List Effect` trace.  The two forwarding loops consume a script of
per-iteration outside-world outcomes; the empty remainder of a script
means "the loop is still running", not an exit of the loop.

Python exception flow is translated to `Except`: a `try/except` that
swallows an exception becomes a total branch, an uncaught exception
becomes an `Except.error` result that each caller propagates exactly as
the source does.
-/

namespace Bridge

/-- `USB_READ_TIMEOUT = 200` (ms), module-level constant of `bridge.py`. -/
def USB_READ_TIMEOUT : Nat := 200

/-- `USB_WRITE_TIMEOUT = 5000` (ms), module-level constant of `bridge.py`. -/
def USB_WRITE_TIMEOUT : Nat := 5000

/-- The `select.select([master], [], [], 0.2)` timeout of
`_pty_writer_loop`, in milliseconds. -/
def SELECT_TIMEOUT_MS : Nat := 200

/-- The `os.read(master, 4096)` chunk bound of `_pty_writer_loop`. -/
def PTY_READ_CHUNK : Nat := 4096

/-- A USB endpoint descriptor as used by `_find_endpoints` and the loops:
`bEndpointAddress`, and `wMaxPacketSize` (`none` models a pyusb endpoint
object without that attribute, the `hasattr` check in `_usb_reader_loop`). -/
structure Endpoint where
  bEndpointAddress : Nat
  wMaxPacketSize : Option Nat
deriving DecidableEq

/-- A USB interface descriptor (alternate setting 0), in the order pyusb
iterates the active configuration.  `cfg[(0,0)]` is modelled as the head
of the interface list. -/
structure Interface where
  bInterfaceClass : Nat
  bInterfaceNumber : Nat
  endpoints : List Endpoint
deriving DecidableEq

/-- Outcome of `dev.is_kernel_driver_active(iface)`: it returns `True`,
returns `False`, or raises `NotImplementedError`/`AttributeError`
(the platform does not support the query). -/
inductive KernelDriverQuery where
  | active
  | notActive
  | unsupported
deriving DecidableEq

/-- Deterministic oracle for the external calls of one session:
the device's active configuration, the kernel-driver query outcome,
whether `detach_kernel_driver` succeeds, whether
`usb.util.claim_interface` succeeds, the `pty.openpty`/`os.ttyname`
outcome (`some (master, slave, slavePath)` or a raised `OSError`), and
whether `release_interface` / `attach_kernel_driver` / `os.close` raise.
The last three are swallowed by bare `except` blocks in the source, so
the theorems show the results do not depend on them. -/
structure Env where
  activeConfig : List Interface
  kernelDriverQuery : KernelDriverQuery
  detachSucceeds : Bool
  claimSucceeds : Bool
  ptyResult : Option (Nat × Nat × String)
  releaseRaises : Bool
  attachRaises : Bool
  closeRaises : Bool
deriving DecidableEq

/-- The mutable fields of a `USBPrinterBridge` object. -/
structure BridgeState where
  out_ep : Option Endpoint
  in_ep : Option Endpoint
  iface : Option Nat
  should_stop : Bool
  master_fd : Option Nat
  slave_name : Option String
  orig_kernel_attached : Bool
deriving DecidableEq

/-- `__init__`: every endpoint/iface/fd field `None`, both flags `False`. -/
def initState : BridgeState :=
  { out_ep := none
    in_ep := none
    iface := none
    should_stop := false
    master_fd := none
    slave_name := none
    orig_kernel_attached := false }

/-- Errors that escape a method of the class (uncaught Python exceptions):
the `RuntimeError` of `start` when no endpoints exist, a `USBError` from
`usb.util.claim_interface`, an `OSError` from `pty.openpty`/`os.ttyname`,
and the index error of `cfg[(0,0)]` on a configuration with no interfaces. -/
inductive BridgeErr where
  | noEndpointsFound
  | interfaceClaimFailed
  | ptyAllocationFailed
  | configIndexError
deriving DecidableEq

/-- Observable external actions, in program order. -/
inductive Effect where
  | detachKernelDriver
  | logDetached
  | logDetachFailed
  | claimInterface
  | releaseInterface
  | attachKernelDriver
  | closeFd (fd : Nat)
  | logSlavePath
  | startUsbReaderThread
  | enterPtyWriterLoop
  | logStopping
  | logStopped
  | usbRead (bufsize : Nat) (timeoutMs : Nat)
  | writeMaster (bs : List Nat)
  | logUsbToPty
  | logReaderError
  | selectWait (timeoutMs : Nat)
  | readMaster (maxBytes : Nat)
  | logDiscardNoOut
  | usbWrite (bs : List Nat) (timeoutMs : Nat)
  | logPtyToUsb
  | logUsbWriteError
deriving DecidableEq

/-- `usb.util.ENDPOINT_IN` (0x80). -/
def ENDPOINT_IN : Nat := 128

/-- `usb.util.ENDPOINT_OUT` (0x00). -/
def ENDPOINT_OUT : Nat := 0

/-- `usb.util.endpoint_direction(addr)`: `addr & 0x80`. -/
def endpoint_direction (addr : Nat) : Nat := addr &&& 128

/-- The endpoint is host-to-device (`endpoint_direction == ENDPOINT_OUT`). -/
def isOutEp (ep : Endpoint) : Bool :=
  endpoint_direction ep.bEndpointAddress == ENDPOINT_OUT

/-- The endpoint is device-to-host (`endpoint_direction == ENDPOINT_IN`). -/
def isInEp (ep : Endpoint) : Bool :=
  endpoint_direction ep.bEndpointAddress == ENDPOINT_IN

/-- One step of the endpoint scan of `_find_endpoints`: the
`if direction == OUT / elif direction == IN` body that overwrites the
`(out_ep, in_ep)` candidate pair. -/
def scanStep (acc : Option Endpoint × Option Endpoint) (ep : Endpoint) :
    Option Endpoint × Option Endpoint :=
  if isOutEp ep then (some ep, acc.2)
  else if isInEp ep then (acc.1, some ep)
  else acc

/-- The `for ep in intf.endpoints()` scan of `_find_endpoints`, starting
from `out_ep = None, in_ep = None`. -/
def scanEndpoints (eps : List Endpoint) : Option Endpoint × Option Endpoint :=
  eps.foldl scanStep (none, none)

/-- The interface-selection part of `_find_endpoints`: first interface of
the active configuration with `bInterfaceClass == 7`, else `cfg[(0,0)]`
(the head of the interface list). -/
def selectInterface (cfg : List Interface) : Option Interface :=
  match cfg.find? (fun i => i.bInterfaceClass == 7) with
  | some i => some i
  | none => cfg.head?

/-- `_find_endpoints`: selects the interface, stores its number in
`self.iface`, scans its endpoints and stores the final `(out_ep, in_ep)`
pair.  On a configuration with no interfaces, `cfg[(0,0)]` raises. -/
def find_endpoints (env : Env) (s : BridgeState) : Except BridgeErr BridgeState :=
  match selectInterface env.activeConfig with
  | none => .error .configIndexError
  | some intf =>
    let scanned := scanEndpoints intf.endpoints
    .ok { s with
            iface := some intf.bInterfaceNumber
            out_ep := scanned.1
            in_ep := scanned.2 }

/-- `_claim`: query the kernel driver (`NotImplementedError`/
`AttributeError` swallowed); if active, try to detach (success sets
`_orig_kernel_attached = True` and logs, a `USBError` only logs); then
`usb.util.claim_interface`, whose failure propagates. -/
def _claim (env : Env) (s : BridgeState) :
    BridgeState × List Effect × Except BridgeErr Unit :=
  let afterDetach : BridgeState × List Effect :=
    match env.kernelDriverQuery with
    | .unsupported => (s, [])
    | .notActive => (s, [])
    | .active =>
      if env.detachSucceeds then
        ({ s with orig_kernel_attached := true },
         [Effect.detachKernelDriver, Effect.logDetached])
      else
        (s, [Effect.detachKernelDriver, Effect.logDetachFailed])
  if env.claimSucceeds then
    (afterDetach.1, afterDetach.2 ++ [Effect.claimInterface], .ok ())
  else
    (afterDetach.1, afterDetach.2 ++ [Effect.claimInterface],
     .error .interfaceClaimFailed)

/-- `_release`: `usb.util.release_interface` inside `try/except
Exception: pass`, then, if `_orig_kernel_attached`,
`attach_kernel_driver` inside `try/except Exception: pass`.  Both calls
are attempted (recorded as effects); both exception sites are swallowed,
so the result never carries an error and does not depend on
`env.releaseRaises` / `env.attachRaises`. -/
def _release (_env : Env) (s : BridgeState) :
    BridgeState × List Effect × Except BridgeErr Unit :=
  let effs :=
    if s.orig_kernel_attached then
      [Effect.releaseInterface, Effect.attachKernelDriver]
    else
      [Effect.releaseInterface]
  (s, effs, .ok ())

/-- `_create_pty`: `pty.openpty()`, `os.ttyname(slave)`, `os.close(slave)`;
an `OSError` from allocation propagates. -/
def _create_pty (env : Env) (s : BridgeState) :
    BridgeState × List Effect × Except BridgeErr Unit :=
  match env.ptyResult with
  | none => (s, [], .error .ptyAllocationFailed)
  | some (master, slave, slavePath) =>
    ({ s with master_fd := some master, slave_name := some slavePath },
     [Effect.closeFd slave], .ok ())

/-- Python truthiness of `self._master_fd` in `stop`'s
`if self._master_fd:` guard: `None` and `0` are falsy. -/
def pyTruthy : Option Nat → Bool
  | none => false
  | some n => n != 0

/-- `stop`: early-return when `_should_stop` is already set; otherwise set
the flag, close the master descriptor when truthy (`OSError` swallowed),
call `_release` (exceptions swallowed), log around both.  All fallible
calls are wrapped, so `stop` always returns and ignores
`env.closeRaises`. -/
def stop (env : Env) (s : BridgeState) : BridgeState × List Effect :=
  if s.should_stop then (s, [])
  else
    let s1 : BridgeState := { s with should_stop := true }
    let effClose :=
      if pyTruthy s1.master_fd then [Effect.closeFd (s1.master_fd.getD 0)]
      else []
    ((_release env s1).1,
     [Effect.logStopping] ++ effClose ++ (_release env s1).2.1
       ++ [Effect.logStopped])

/-- Outcome of one `self.dev.read(...)` call in `_usb_reader_loop`:
data returned (possibly the empty array), a `usb.core.USBTimeoutError`
(a subclass of `USBError`), another `usb.core.USBError`, or a non-USB
exception. -/
inductive UsbReadOutcome where
  | data (bs : List Nat)
  | usbTimeout
  | usbError
  | otherError
deriving DecidableEq

/-- Outcome of the `os.write(self._master_fd, ...)` call in
`_usb_reader_loop`: success, `OSError` with `errno == EBADF`, or an
`OSError` with another errno. -/
inductive MasterWriteOutcome where
  | ok
  | osErrorEBADF
  | osErrorOther
deriving DecidableEq

/-- Outside-world outcomes of one iteration of `_usb_reader_loop`:
whether `_should_stop` was observed set at the loop head (set
concurrently by `stop`), the read outcome, and the master-write outcome
(consulted only when data was read). -/
structure ReaderEvent where
  stopFlagSet : Bool
  readOutcome : UsbReadOutcome
  writeOutcome : MasterWriteOutcome
deriving DecidableEq

/-- How (or whether) `_usb_reader_loop` ended on the given script. -/
inductive ReaderExit where
  | stopFlag
  | masterClosed
  | fatalError
  | stillRunning
deriving DecidableEq

/-- `bufsize` of `_usb_reader_loop`: `wMaxPacketSize` when the attribute
exists, else 512. -/
def reader_bufsize (ep : Endpoint) : Nat :=
  match ep.wMaxPacketSize with
  | some w => w
  | none => 512

/-- `_usb_reader_loop`, iterated over a script of per-iteration outcomes
(`ep` is `self.in_ep`).  `dev.read` is attempted each iteration; data is
written to the master (`EBADF` breaks, another `OSError` is swallowed by
the `if e.errno == errno.EBADF` test falling through); `except
usb.core.USBError: pass` retries; `except Exception` logs and breaks. -/
def _usb_reader_loop (ep : Endpoint) (stop0 : Bool) :
    List ReaderEvent → List Effect × ReaderExit
  | [] => ([], .stillRunning)
  | ev :: rest =>
    if stop0 || ev.stopFlagSet then ([], .stopFlag)
    else
      match ev.readOutcome with
      | .data bs =>
        if bs.isEmpty then
          (Effect.usbRead (reader_bufsize ep) USB_READ_TIMEOUT
             :: (_usb_reader_loop ep stop0 rest).1,
           (_usb_reader_loop ep stop0 rest).2)
        else
          match ev.writeOutcome with
          | .ok =>
            (Effect.usbRead (reader_bufsize ep) USB_READ_TIMEOUT
               :: Effect.writeMaster bs :: Effect.logUsbToPty
               :: (_usb_reader_loop ep stop0 rest).1,
             (_usb_reader_loop ep stop0 rest).2)
          | .osErrorEBADF =>
            ([Effect.usbRead (reader_bufsize ep) USB_READ_TIMEOUT],
             .masterClosed)
          | .osErrorOther =>
            (Effect.usbRead (reader_bufsize ep) USB_READ_TIMEOUT
               :: (_usb_reader_loop ep stop0 rest).1,
             (_usb_reader_loop ep stop0 rest).2)
      | .usbTimeout =>
        (Effect.usbRead (reader_bufsize ep) USB_READ_TIMEOUT
           :: (_usb_reader_loop ep stop0 rest).1,
         (_usb_reader_loop ep stop0 rest).2)
      | .usbError =>
        (Effect.usbRead (reader_bufsize ep) USB_READ_TIMEOUT
           :: (_usb_reader_loop ep stop0 rest).1,
         (_usb_reader_loop ep stop0 rest).2)
      | .otherError =>
        ([Effect.usbRead (reader_bufsize ep) USB_READ_TIMEOUT,
          Effect.logReaderError],
         .fatalError)

/-- Outcome of the `os.read(master, 4096)` call in `_pty_writer_loop`. -/
inductive PtyReadOutcome where
  | data (bs : List Nat)
  | osError
deriving DecidableEq

/-- Outside-world outcomes of one iteration of `_pty_writer_loop`. -/
structure WriterEvent where
  stopFlagSet : Bool
  selectReady : Bool
  readOutcome : PtyReadOutcome
  usbWriteOk : Bool
deriving DecidableEq

/-- How (or whether) `_pty_writer_loop` ended on the given script. -/
inductive WriterExit where
  | stopFlag
  | readError
  | peerClosed
  | stillRunning
deriving DecidableEq

/-- `_pty_writer_loop`, iterated over a script (`oep` is `self.out_ep`):
select with 0.2s timeout; on readiness read up to 4096 bytes (`OSError`
breaks, empty read breaks); with no OUT endpoint log and discard;
otherwise `dev.write` with the 5000 ms timeout, a `usb.core.USBError`
being logged and the loop continuing. -/
def _pty_writer_loop (stop0 : Bool) (oep : Option Endpoint) :
    List WriterEvent → List Effect × WriterExit
  | [] => ([], .stillRunning)
  | ev :: rest =>
    if stop0 || ev.stopFlagSet then ([], .stopFlag)
    else
      if ev.selectReady then
        match ev.readOutcome with
        | .osError =>
          ([Effect.selectWait SELECT_TIMEOUT_MS,
            Effect.readMaster PTY_READ_CHUNK],
           .readError)
        | .data bs =>
          if bs.isEmpty then
            ([Effect.selectWait SELECT_TIMEOUT_MS,
              Effect.readMaster PTY_READ_CHUNK],
             .peerClosed)
          else
            match oep with
            | none =>
              (Effect.selectWait SELECT_TIMEOUT_MS
                 :: Effect.readMaster PTY_READ_CHUNK
                 :: Effect.logDiscardNoOut
                 :: (_pty_writer_loop stop0 none rest).1,
               (_pty_writer_loop stop0 none rest).2)
            | some ep =>
              if ev.usbWriteOk then
                (Effect.selectWait SELECT_TIMEOUT_MS
                   :: Effect.readMaster PTY_READ_CHUNK
                   :: Effect.usbWrite bs USB_WRITE_TIMEOUT
                   :: Effect.logPtyToUsb
                   :: (_pty_writer_loop stop0 (some ep) rest).1,
                 (_pty_writer_loop stop0 (some ep) rest).2)
              else
                (Effect.selectWait SELECT_TIMEOUT_MS
                   :: Effect.readMaster PTY_READ_CHUNK
                   :: Effect.usbWrite bs USB_WRITE_TIMEOUT
                   :: Effect.logUsbWriteError
                   :: (_pty_writer_loop stop0 (some ep) rest).1,
                 (_pty_writer_loop stop0 (some ep) rest).2)
      else
        (Effect.selectWait SELECT_TIMEOUT_MS
           :: (_pty_writer_loop stop0 oep rest).1,
         (_pty_writer_loop stop0 oep rest).2)

/-- `start`: `_find_endpoints`; raise when both endpoints are `None`;
`_claim` (failure propagates, nothing rolled back); `_create_pty`
(failure propagates, nothing rolled back — the `try/finally` of the
source only wraps the writer-loop call); log the slave path; start the
reader thread when an IN endpoint exists; run `_pty_writer_loop` on the
script, and when the loop exits, the `finally` clause calls `stop`.
A `stillRunning` script remainder means the session is still inside the
loop, so the `finally` has not run yet. -/
def start (env : Env) (script : List WriterEvent) (s : BridgeState) :
    BridgeState × List Effect × Except BridgeErr Unit :=
  match find_endpoints env s with
  | .error e => (s, [], .error e)
  | .ok s1 =>
    if s1.out_ep.isNone && s1.in_ep.isNone then
      (s1, [], .error .noEndpointsFound)
    else
      match (_claim env s1).2.2 with
      | .error e => ((_claim env s1).1, (_claim env s1).2.1, .error e)
      | .ok _ =>
        match (_create_pty env (_claim env s1).1).2.2 with
        | .error e =>
          ((_create_pty env (_claim env s1).1).1,
           (_claim env s1).2.1 ++ (_create_pty env (_claim env s1).1).2.1,
           .error e)
        | .ok _ =>
          let p1 := (_create_pty env (_claim env s1).1).1
          let effLaunch :=
            [Effect.logSlavePath]
              ++ (if p1.in_ep.isSome then [Effect.startUsbReaderThread] else [])
              ++ [Effect.enterPtyWriterLoop]
          let run := _pty_writer_loop p1.should_stop p1.out_ep script
          match run.2 with
          | .stillRunning =>
            (p1,
             (_claim env s1).2.1 ++ (_create_pty env (_claim env s1).1).2.1
               ++ effLaunch ++ run.1,
             .ok ())
          | _ =>
            ((stop env p1).1,
             (_claim env s1).2.1 ++ (_create_pty env (_claim env s1).1).2.1
               ++ effLaunch ++ run.1 ++ (stop env p1).2,
             .ok ())

/-! ### Concrete fixtures (devices, environments, loop events) -/

/-- A host-to-device bulk endpoint (address 0x01, direction bit clear). -/
def epOut1 : Endpoint := { bEndpointAddress := 1, wMaxPacketSize := some 64 }

/-- A device-to-host bulk endpoint (address 0x81, direction bit set). -/
def epIn129 : Endpoint := { bEndpointAddress := 129, wMaxPacketSize := some 64 }

/-- A printer-class interface with one OUT and one IN endpoint. -/
def intfPrinter : Interface :=
  { bInterfaceClass := 7, bInterfaceNumber := 0,
    endpoints := [epOut1, epIn129] }

/-- A printer-class interface with no endpoints at all. -/
def intfNoEps : Interface :=
  { bInterfaceClass := 7, bInterfaceNumber := 0, endpoints := [] }

/-- A vendor-specific (non-printer) interface. -/
def intfVendor : Interface :=
  { bInterfaceClass := 255, bInterfaceNumber := 2, endpoints := [epIn129] }

/-- Environment where everything succeeds except `pty.openpty`. -/
def envPtyFail : Env :=
  { activeConfig := [intfPrinter], kernelDriverQuery := .notActive,
    detachSucceeds := true, claimSucceeds := true, ptyResult := none,
    releaseRaises := false, attachRaises := false, closeRaises := false }

/-- Environment where every external call succeeds. -/
def envOk : Env :=
  { activeConfig := [intfPrinter], kernelDriverQuery := .notActive,
    detachSucceeds := true, claimSucceeds := true,
    ptyResult := some (3, 4, "pts2"),
    releaseRaises := false, attachRaises := false, closeRaises := false }

/-- Environment whose device exposes an interface without endpoints. -/
def envNoEps : Env :=
  { envOk with activeConfig := [intfNoEps] }

/-- Environment where the kernel-driver query raises
`NotImplementedError`. -/
def envUnsupported : Env :=
  { envOk with kernelDriverQuery := .unsupported }

/-- Environment with an attached kernel driver whose detach fails. -/
def envDetachFail : Env :=
  { envOk with kernelDriverQuery := .active, detachSucceeds := false }

/-- The state `_find_endpoints` produces from `initState` on
`envPtyFail`/`envOk`. -/
def s1Resolved : BridgeState :=
  { initState with iface := some 0, out_ep := some epOut1, in_ep := some epIn129 }

/-- The state `_find_endpoints` produces from `initState` on `envNoEps`. -/
def s1NoEps : BridgeState := { initState with iface := some 0 }

/-- Reader-loop iteration: a non-timeout `usb.core.USBError` on read. -/
def evUsbErr : ReaderEvent :=
  { stopFlagSet := false, readOutcome := .usbError, writeOutcome := .ok }

/-- Reader-loop iteration: a `usb.core.USBTimeoutError` on read. -/
def evTimeout : ReaderEvent :=
  { stopFlagSet := false, readOutcome := .usbTimeout, writeOutcome := .ok }

/-- Reader-loop iteration: a non-USB exception on read. -/
def evOtherErr : ReaderEvent :=
  { stopFlagSet := false, readOutcome := .otherError, writeOutcome := .ok }

/-- Reader-loop iteration: one data packet, master write succeeds. -/
def evData7 : ReaderEvent :=
  { stopFlagSet := false, readOutcome := .data [7], writeOutcome := .ok }

/-- Writer-loop iteration: select times out (not ready). -/
def wNotReady : WriterEvent :=
  { stopFlagSet := false, selectReady := false, readOutcome := .data [],
    usbWriteOk := true }

/-- Writer-loop iteration: ready, zero bytes read (peer closed). -/
def wEof : WriterEvent :=
  { stopFlagSet := false, selectReady := true, readOutcome := .data [],
    usbWriteOk := true }

/-- Writer-loop iteration: ready, two bytes read, USB write succeeds. -/
def wData : WriterEvent :=
  { stopFlagSet := false, selectReady := true, readOutcome := .data [1, 2],
    usbWriteOk := true }

/-- Writer-loop iteration: ready, two bytes read, USB write raises
`usb.core.USBError`. -/
def wDataFail : WriterEvent :=
  { stopFlagSet := false, selectReady := true, readOutcome := .data [1, 2],
    usbWriteOk := false }

/-! ### Basic lemmas about the embedded operations -/

lemma claim_result (env : Env) (s : BridgeState) :
    (_claim env s).2.2 =
      if env.claimSucceeds then Except.ok ()
      else Except.error BridgeErr.interfaceClaimFailed := by
  unfold _claim
  cases env.kernelDriverQuery <;> cases env.detachSucceeds <;>
    cases env.claimSucceeds <;> simp

lemma claim_preserves (env : Env) (s : BridgeState) :
    (_claim env s).1.should_stop = s.should_stop ∧
      (_claim env s).1.in_ep = s.in_ep ∧
      (_claim env s).1.out_ep = s.out_ep ∧
      (_claim env s).1.master_fd = s.master_fd := by
  unfold _claim
  cases env.kernelDriverQuery <;> cases env.detachSucceeds <;>
    cases env.claimSucceeds <;> simp

lemma claim_effects_eq (env : Env) (s : BridgeState) :
    (_claim env s).2.1 =
      (match env.kernelDriverQuery with
        | .unsupported => []
        | .notActive => []
        | .active =>
          if env.detachSucceeds then
            [Effect.detachKernelDriver, Effect.logDetached]
          else
            [Effect.detachKernelDriver, Effect.logDetachFailed])
        ++ [Effect.claimInterface] := by
  unfold _claim
  cases env.kernelDriverQuery <;> cases env.detachSucceeds <;>
    cases env.claimSucceeds <;> simp

lemma mem_claim_effects (env : Env) (s : BridgeState) (e : Effect)
    (h : e ∈ (_claim env s).2.1) :
    e = Effect.detachKernelDriver ∨ e = Effect.logDetached ∨
      e = Effect.logDetachFailed ∨ e = Effect.claimInterface := by
  rw [claim_effects_eq] at h
  cases hq : env.kernelDriverQuery <;> simp [hq] at h <;> try tauto
  by_cases hd : env.detachSucceeds <;> simp [hd] at h <;> tauto

lemma pty_result (env : Env) (s : BridgeState) :
    (_create_pty env s).2.2 =
      match env.ptyResult with
      | none => Except.error BridgeErr.ptyAllocationFailed
      | some _ => Except.ok () := by
  cases hp : env.ptyResult with
  | none => simp [_create_pty, hp]
  | some v =>
    obtain ⟨m, sl, p⟩ := v
    simp [_create_pty, hp]

lemma pty_preserves (env : Env) (s : BridgeState) :
    (_create_pty env s).1.should_stop = s.should_stop ∧
      (_create_pty env s).1.in_ep = s.in_ep ∧
      (_create_pty env s).1.out_ep = s.out_ep ∧
      (_create_pty env s).1.orig_kernel_attached = s.orig_kernel_attached := by
  cases hp : env.ptyResult with
  | none => simp [_create_pty, hp]
  | some v =>
    obtain ⟨m, sl, p⟩ := v
    simp [_create_pty, hp]

lemma mem_pty_effects (env : Env) (s : BridgeState) (e : Effect)
    (h : e ∈ (_create_pty env s).2.1) : ∃ n, e = Effect.closeFd n := by
  cases hp : env.ptyResult with
  | none => simp [_create_pty, hp] at h
  | some v =>
    obtain ⟨m, sl, p⟩ := v
    simp [_create_pty, hp] at h
    exact ⟨sl, h⟩

lemma release_state (env : Env) (s : BridgeState) : (_release env s).1 = s := rfl

lemma stop_state (env : Env) (s : BridgeState) :
    (stop env s).1 = if s.should_stop then s else { s with should_stop := true } := by
  unfold stop _release
  by_cases h : s.should_stop <;> simp [h]

lemma stop_flag (env : Env) (s : BridgeState) :
    (stop env s).1.should_stop = true := by
  rw [stop_state]
  by_cases h : s.should_stop <;> simp [h]

lemma stop_effects (env : Env) (s : BridgeState) :
    (stop env s).2 =
      if s.should_stop then []
      else
        [Effect.logStopping]
          ++ (if pyTruthy s.master_fd then [Effect.closeFd (s.master_fd.getD 0)]
              else [])
          ++ (if s.orig_kernel_attached then
                [Effect.releaseInterface, Effect.attachKernelDriver]
              else [Effect.releaseInterface])
          ++ [Effect.logStopped] := by
  unfold stop _release
  by_cases h : s.should_stop <;> simp [h]

lemma stop_no_launch_effects (env : Env) (s : BridgeState) :
    Effect.startUsbReaderThread ∉ (stop env s).2 ∧
      Effect.enterPtyWriterLoop ∉ (stop env s).2 := by
  rw [stop_effects]
  by_cases h1 : s.should_stop <;> by_cases h2 : pyTruthy s.master_fd <;>
    by_cases h3 : s.orig_kernel_attached <;> simp [h1, h2, h3]

lemma release_mem_stop (env : Env) (s : BridgeState)
    (h : s.should_stop = false) :
    Effect.releaseInterface ∈ (stop env s).2 := by
  rw [stop_effects]
  by_cases h2 : pyTruthy s.master_fd <;>
    by_cases h3 : s.orig_kernel_attached <;> simp [h, h2, h3]

lemma claim_effects_not_mem (env : Env) (s : BridgeState) :
    Effect.startUsbReaderThread ∉ (_claim env s).2.1 ∧
      Effect.enterPtyWriterLoop ∉ (_claim env s).2.1 ∧
      Effect.releaseInterface ∉ (_claim env s).2.1 := by
  simp only [claim_effects_eq]
  cases hq : env.kernelDriverQuery <;> by_cases hd : env.detachSucceeds <;>
    simp [hq, hd]

lemma writer_no_launch_effects (stop0 : Bool) (oep : Option Endpoint) :
    ∀ script,
      Effect.startUsbReaderThread ∉ (_pty_writer_loop stop0 oep script).1 ∧
        Effect.enterPtyWriterLoop ∉ (_pty_writer_loop stop0 oep script).1 := by
  intro script
  induction script generalizing oep with
  | nil => simp [_pty_writer_loop]
  | cons ev rest ih =>
    have ih1 := fun o => (ih o).1
    have ih2 := fun o => (ih o).2
    simp only [_pty_writer_loop]
    repeat' split
    all_goals simp_all

lemma writer_none_no_usbWrite (stop0 : Bool) :
    ∀ script (bs : List Nat) (t : Nat),
      Effect.usbWrite bs t ∉ (_pty_writer_loop stop0 none script).1 := by
  intro script
  induction script with
  | nil => simp [_pty_writer_loop]
  | cons ev rest ih =>
    intro bs t
    simp only [_pty_writer_loop]
    repeat' split
    all_goals simp_all

lemma find?_concat {α : Type} (p : α → Bool) (l : List α) (a : α) :
    (l ++ [a]).find? p =
      match l.find? p with
      | some x => some x
      | none => if p a then some a else none := by
  induction l with
  | nil =>
    simp only [List.nil_append, List.find?_nil, List.find?]
    cases hpa : p a <;> simp [hpa]
  | cons b l ih =>
    by_cases hb : p b <;> simp [List.find?, hb, ih]

lemma out_not_in (ep : Endpoint) (h : isOutEp ep = true) : isInEp ep = false := by
  unfold isOutEp endpoint_direction ENDPOINT_OUT at h
  unfold isInEp endpoint_direction ENDPOINT_IN
  simp at h
  simp [h]

lemma scanStep_fst (acc : Option Endpoint × Option Endpoint) (e : Endpoint) :
    (scanStep acc e).1 = if isOutEp e then some e else acc.1 := by
  by_cases h1 : isOutEp e
  · simp [scanStep, h1]
  · by_cases h2 : isInEp e <;> simp [scanStep, h1, h2]

lemma scanStep_snd (acc : Option Endpoint × Option Endpoint) (e : Endpoint) :
    (scanStep acc e).2 = if isInEp e then some e else acc.2 := by
  by_cases h1 : isOutEp e
  · have := out_not_in e h1
    simp [scanStep, h1, this]
  · by_cases h2 : isInEp e <;> simp [scanStep, h1, h2]

lemma scan_foldl (eps : List Endpoint) :
    ∀ acc, eps.foldl scanStep acc =
      ((eps.reverse.find? isOutEp).elim acc.1 some,
       (eps.reverse.find? isInEp).elim acc.2 some) := by
  induction eps with
  | nil => intro acc; simp
  | cons e rest ih =>
    intro acc
    rw [List.foldl_cons, ih (scanStep acc e), List.reverse_cons,
      find?_concat, find?_concat]
    rcases ho : rest.reverse.find? isOutEp with _ | x <;>
      rcases hi : rest.reverse.find? isInEp with _ | y <;>
        simp [scanStep_fst, scanStep_snd] <;>
        by_cases he1 : isOutEp e <;> by_cases he2 : isInEp e <;>
          simp [he1, he2]

/-- `scanEndpoints` keeps the last-seen OUT and last-seen IN endpoint of
the scan order. -/
lemma scanEndpoints_eq (eps : List Endpoint) :
    scanEndpoints eps =
      (eps.reverse.find? isOutEp, eps.reverse.find? isInEp) := by
  rw [scanEndpoints, scan_foldl]
  rcases eps.reverse.find? isOutEp with _ | x <;>
    rcases eps.reverse.find? isInEp with _ | y <;> simp

lemma find_preserves (env : Env) (s s1 : BridgeState)
    (h : find_endpoints env s = .ok s1) :
    s1.should_stop = s.should_stop ∧ s1.master_fd = s.master_fd ∧
      s1.orig_kernel_attached = s.orig_kernel_attached := by
  unfold find_endpoints at h
  cases hsel : selectInterface env.activeConfig with
  | none => rw [hsel] at h; cases h
  | some intf =>
    rw [hsel] at h
    simp only [Except.ok.injEq] at h
    subst h
    simp

lemma stop_preserves_eps (env : Env) (s : BridgeState) :
    (stop env s).1.in_ep = s.in_ep ∧ (stop env s).1.out_ep = s.out_ep := by
  rw [stop_state]
  by_cases h : s.should_stop <;> simp [h]

lemma stop_already (env : Env) (s : BridgeState) (h : s.should_stop = true) :
    stop env s = (s, []) := by
  unfold stop
  simp [h]

/-! ### Control-path equations for `start` -/

lemma start_find_error (env : Env) (script : List WriterEvent)
    (s : BridgeState) (e : BridgeErr) (h : find_endpoints env s = .error e) :
    start env script s = (s, [], .error e) := by
  simp [start, h]

lemma start_no_endpoints (env : Env) (script : List WriterEvent)
    (s s1 : BridgeState) (h : find_endpoints env s = .ok s1)
    (hb : (s1.out_ep.isNone && s1.in_ep.isNone) = true) :
    start env script s = (s1, [], .error .noEndpointsFound) := by
  simp [start, h, hb]

lemma start_claim_error (env : Env) (script : List WriterEvent)
    (s s1 : BridgeState) (h : find_endpoints env s = .ok s1)
    (hb : (s1.out_ep.isNone && s1.in_ep.isNone) = false)
    (hc : env.claimSucceeds = false) :
    start env script s =
      ((_claim env s1).1, (_claim env s1).2.1,
       .error .interfaceClaimFailed) := by
  have hcr := claim_result env s1
  rw [hc] at hcr
  simp only [Bool.false_eq_true, if_false] at hcr
  simp [start, h, hb, hcr]

lemma start_pty_error (env : Env) (script : List WriterEvent)
    (s s1 : BridgeState) (h : find_endpoints env s = .ok s1)
    (hb : (s1.out_ep.isNone && s1.in_ep.isNone) = false)
    (hc : env.claimSucceeds = true) (hp : env.ptyResult = none) :
    start env script s =
      ((_claim env s1).1, (_claim env s1).2.1,
       .error .ptyAllocationFailed) := by
  have hcr := claim_result env s1
  rw [hc] at hcr
  simp only [if_true] at hcr
  have hpe : _create_pty env (_claim env s1).1 =
      ((_claim env s1).1, [], .error .ptyAllocationFailed) := by
    simp [_create_pty, hp]
  simp [start, h, hb, hcr, hpe]

lemma start_success (env : Env) (script : List WriterEvent)
    (s s1 : BridgeState) (m sl : Nat) (path : String)
    (h : find_endpoints env s = .ok s1)
    (hb : (s1.out_ep.isNone && s1.in_ep.isNone) = false)
    (hc : env.claimSucceeds = true)
    (hp : env.ptyResult = some (m, sl, path)) :
    start env script s =
      (let p1 : BridgeState :=
        { (_claim env s1).1 with master_fd := some m, slave_name := some path }
       let run := _pty_writer_loop p1.should_stop p1.out_ep script
       let effs := (_claim env s1).2.1 ++ [Effect.closeFd sl]
           ++ ([Effect.logSlavePath]
               ++ (if p1.in_ep.isSome then [Effect.startUsbReaderThread] else [])
               ++ [Effect.enterPtyWriterLoop])
           ++ run.1
       match run.2 with
       | .stillRunning => (p1, effs, Except.ok ())
       | _ => ((stop env p1).1, effs ++ (stop env p1).2, Except.ok ())) := by
  have hcr := claim_result env s1
  rw [hc] at hcr
  simp only [if_true] at hcr
  have hpe : _create_pty env (_claim env s1).1 =
      ({ (_claim env s1).1 with master_fd := some m, slave_name := some path },
       [Effect.closeFd sl], .ok ()) := by
    simp [_create_pty, hp]
  simp only [start, h, hb, hcr, hpe, Bool.false_eq_true, if_false]

/-! ### Claim theorems -/

/-- C3: `stop()` is idempotent — after any call to `stop`, a second call
(under any environment behaviour) returns the state unchanged and
performs no effect at all: no second descriptor close, no second
interface release, and no error. -/
theorem C3_theorem (env env2 : Env) (s : BridgeState) :
    stop env2 (stop env s).1 = ((stop env s).1, []) :=
  stop_already env2 (stop env s).1 (stop_flag env s)

/-- C6: `_release` never raises: for every environment (including those
where `release_interface` or `attach_kernel_driver` raise) and every
state its result carries no error and does not depend on the
environment at all; the USB-level release is always attempted, and
kernel-driver reattachment is attempted exactly when a kernel driver was
detached during claim (`orig_kernel_attached`). -/
theorem C6_theorem :
    (∀ env env2 : Env, ∀ s : BridgeState, _release env s = _release env2 s) ∧
    (∀ env : Env, ∀ s : BridgeState, (_release env s).2.2 = Except.ok ()) ∧
    (∀ env : Env, ∀ s : BridgeState,
      Effect.releaseInterface ∈ (_release env s).2.1) ∧
    (∀ env : Env, ∀ s : BridgeState,
      Effect.attachKernelDriver ∈ (_release env s).2.1 ↔
        s.orig_kernel_attached = true) := by
  refine ⟨fun env env2 s => rfl, fun env s => rfl, fun env s => ?_,
    fun env s => ?_⟩
  · unfold _release
    by_cases h : s.orig_kernel_attached <;> simp [h]
  · unfold _release
    by_cases h : s.orig_kernel_attached <;> simp [h]

/-- C7: during `_claim`, an unsupported kernel-driver query is treated as
"not attached" (state unchanged, no detach attempted, claim proceeds);
a failed detach of an active driver is logged and does not change the
outcome; and the overall result is an `InterfaceClaimFailed` error
exactly when the USB-level `claim_interface` call fails. -/
theorem C7_theorem (env : Env) (s : BridgeState) :
    ((_claim env s).2.2 =
      if env.claimSucceeds then Except.ok ()
      else Except.error BridgeErr.interfaceClaimFailed) ∧
    (env.kernelDriverQuery = KernelDriverQuery.unsupported →
      (_claim env s).1 = s ∧
        Effect.detachKernelDriver ∉ (_claim env s).2.1) ∧
    (env.kernelDriverQuery = KernelDriverQuery.active →
      env.detachSucceeds = false →
      Effect.logDetachFailed ∈ (_claim env s).2.1 ∧ (_claim env s).1 = s) ∧
    Effect.claimInterface ∈ (_claim env s).2.1 := by
  refine ⟨claim_result env s, ?_, ?_, ?_⟩
  · intro hq
    constructor
    · unfold _claim
      by_cases hc : env.claimSucceeds <;> simp [hq, hc]
    · rw [claim_effects_eq]
      simp [hq]
  · intro hq hd
    constructor
    · rw [claim_effects_eq]
      simp [hq, hd]
    · unfold _claim
      by_cases hc : env.claimSucceeds <;> simp [hq, hd, hc]
  · rw [claim_effects_eq]
    simp

/-- C7 witness: on `envUnsupported` the claim proceeds with no detach; on
`envDetachFail` the failed detach is logged, the state is unchanged, and
the claim still succeeds. -/
theorem C7_witness :
    ((_claim envUnsupported initState).1 = initState ∧
      Effect.detachKernelDriver ∉ (_claim envUnsupported initState).2.1) ∧
    (Effect.logDetachFailed ∈ (_claim envDetachFail initState).2.1 ∧
      (_claim envDetachFail initState).1 = initState) :=
  ⟨(C7_theorem envUnsupported initState).2.1 rfl,
   (C7_theorem envDetachFail initState).2.2.1 rfl rfl⟩

/-- C10: `stop()` never raises and is insensitive to every failure of the
close/release/reattach calls (its result is the same under any two
environments); when the master descriptor was never provisioned
(`master_fd = None`) no descriptor close is attempted. -/
theorem C10_theorem :
    (∀ env env2 : Env, ∀ s : BridgeState, stop env s = stop env2 s) ∧
    (∀ env : Env, ∀ s : BridgeState, s.master_fd = none →
      ∀ fd, Effect.closeFd fd ∉ (stop env s).2) := by
  constructor
  · intro env env2 s
    rfl
  · intro env s h fd
    rw [stop_effects]
    by_cases h1 : s.should_stop
    · simp [h1]
    · by_cases h3 : s.orig_kernel_attached <;>
        simp [h1, h3, h, pyTruthy]

/-- C10 witness: stopping a freshly constructed session (no master
descriptor yet) closes no descriptor. -/
theorem C10_witness : Effect.closeFd 5 ∉ (stop envOk initState).2 :=
  C10_theorem.2 envOk initState rfl 5

/-- C2 counterexample: a non-timeout `usb.core.USBError` on the USB read
is neither logged nor does it end the forwarding path — the loop retries
and forwards the next packet, refuting the claim that a non-timeout USB
error is logged and ends the path. -/
theorem C2_counterexample :
    _usb_reader_loop epIn129 false [evUsbErr, evData7] =
      ([Effect.usbRead 64 USB_READ_TIMEOUT,
        Effect.usbRead 64 USB_READ_TIMEOUT,
        Effect.writeMaster [7], Effect.logUsbToPty],
       ReaderExit.stillRunning) ∧
    Effect.logReaderError ∉ (_usb_reader_loop epIn129 false [evUsbErr, evData7]).1 ∧
    (_usb_reader_loop epIn129 false [evUsbErr, evData7]).2 ≠ ReaderExit.fatalError :=
  ⟨rfl, by decide, by decide⟩

/-- C2 (amended): in the USB-to-terminal forwarding loop a USB read that
fails with a timeout causes the loop to continue and retry, and so does
every other `usb.core.USBError` (silently, with no log); only a non-USB
exception is logged and ends the forwarding path. -/
theorem C2_theorem (ep : Endpoint) (ev : ReaderEvent)
    (rest : List ReaderEvent) (hf : ev.stopFlagSet = false) :
    ((ev.readOutcome = UsbReadOutcome.usbTimeout ∨
        ev.readOutcome = UsbReadOutcome.usbError) →
      _usb_reader_loop ep false (ev :: rest) =
        (Effect.usbRead (reader_bufsize ep) USB_READ_TIMEOUT ::
           (_usb_reader_loop ep false rest).1,
         (_usb_reader_loop ep false rest).2)) ∧
    (ev.readOutcome = UsbReadOutcome.otherError →
      _usb_reader_loop ep false (ev :: rest) =
        ([Effect.usbRead (reader_bufsize ep) USB_READ_TIMEOUT,
          Effect.logReaderError],
         ReaderExit.fatalError)) := by
  constructor
  · rintro (hro | hro) <;> simp [_usb_reader_loop, hf, hro]
  · intro hro
    simp [_usb_reader_loop, hf, hro]

/-- C2 witness: the amended behaviour at concrete loop iterations — a
non-timeout USB error retries, a non-USB exception logs and ends. -/
theorem C2_witness :
    (_usb_reader_loop epIn129 false [evUsbErr] =
      (Effect.usbRead (reader_bufsize epIn129) USB_READ_TIMEOUT ::
         (_usb_reader_loop epIn129 false []).1,
       (_usb_reader_loop epIn129 false []).2)) ∧
    (_usb_reader_loop epIn129 false [evOtherErr] =
      ([Effect.usbRead (reader_bufsize epIn129) USB_READ_TIMEOUT,
        Effect.logReaderError],
       ReaderExit.fatalError)) :=
  ⟨(C2_theorem epIn129 evUsbErr [] rfl).1 (Or.inr rfl),
   (C2_theorem epIn129 evOtherErr [] rfl).2 rfl⟩

/-- C8: each iteration of the terminal-to-USB loop waits on the master
descriptor with the 200 ms select timeout; on readiness it reads at most
4096 bytes; a zero-byte read ends the path (`peerClosed`); with an
outbound endpoint the bytes are written with the 5000 ms USB timeout,
and a failed USB write is logged and the loop continues. -/
theorem C8_theorem (oep : Option Endpoint) (ep : Endpoint)
    (ev : WriterEvent) (rest : List WriterEvent) (bs : List Nat)
    (hf : ev.stopFlagSet = false) :
    SELECT_TIMEOUT_MS = 200 ∧ PTY_READ_CHUNK = 4096 ∧
    USB_WRITE_TIMEOUT = 5000 ∧
    (ev.selectReady = false →
      _pty_writer_loop false oep (ev :: rest) =
        (Effect.selectWait SELECT_TIMEOUT_MS ::
           (_pty_writer_loop false oep rest).1,
         (_pty_writer_loop false oep rest).2)) ∧
    (ev.selectReady = true → ev.readOutcome = PtyReadOutcome.data [] →
      _pty_writer_loop false oep (ev :: rest) =
        ([Effect.selectWait SELECT_TIMEOUT_MS,
          Effect.readMaster PTY_READ_CHUNK],
         WriterExit.peerClosed)) ∧
    (ev.selectReady = true → ev.readOutcome = PtyReadOutcome.data bs →
      bs ≠ [] → ev.usbWriteOk = true →
      _pty_writer_loop false (some ep) (ev :: rest) =
        (Effect.selectWait SELECT_TIMEOUT_MS ::
           Effect.readMaster PTY_READ_CHUNK ::
           Effect.usbWrite bs USB_WRITE_TIMEOUT ::
           Effect.logPtyToUsb ::
           (_pty_writer_loop false (some ep) rest).1,
         (_pty_writer_loop false (some ep) rest).2)) ∧
    (ev.selectReady = true → ev.readOutcome = PtyReadOutcome.data bs →
      bs ≠ [] → ev.usbWriteOk = false →
      _pty_writer_loop false (some ep) (ev :: rest) =
        (Effect.selectWait SELECT_TIMEOUT_MS ::
           Effect.readMaster PTY_READ_CHUNK ::
           Effect.usbWrite bs USB_WRITE_TIMEOUT ::
           Effect.logUsbWriteError ::
           (_pty_writer_loop false (some ep) rest).1,
         (_pty_writer_loop false (some ep) rest).2)) := by
  refine ⟨rfl, rfl, rfl, ?_, ?_, ?_, ?_⟩
  · intro hsel
    simp [_pty_writer_loop, hf, hsel]
  · intro hsel hro
    simp [_pty_writer_loop, hf, hsel, hro]
  · intro hsel hro hbs hw
    simp [_pty_writer_loop, hf, hsel, hro, hw, List.isEmpty_iff, hbs]
  · intro hsel hro hbs hw
    simp [_pty_writer_loop, hf, hsel, hro, hw, List.isEmpty_iff, hbs]

/-- C8 witness: the four iteration behaviours at concrete events — select
timeout, peer close on empty read, successful bounded write, and a
logged-but-non-fatal failed write. -/
theorem C8_witness :
    (_pty_writer_loop false (some epOut1) [wNotReady] =
      (Effect.selectWait SELECT_TIMEOUT_MS ::
         (_pty_writer_loop false (some epOut1) []).1,
       (_pty_writer_loop false (some epOut1) []).2)) ∧
    (_pty_writer_loop false (some epOut1) [wEof] =
      ([Effect.selectWait SELECT_TIMEOUT_MS,
        Effect.readMaster PTY_READ_CHUNK],
       WriterExit.peerClosed)) ∧
    (_pty_writer_loop false (some epOut1) [wData] =
      (Effect.selectWait SELECT_TIMEOUT_MS ::
         Effect.readMaster PTY_READ_CHUNK ::
         Effect.usbWrite [1, 2] USB_WRITE_TIMEOUT ::
         Effect.logPtyToUsb ::
         (_pty_writer_loop false (some epOut1) []).1,
       (_pty_writer_loop false (some epOut1) []).2)) ∧
    (_pty_writer_loop false (some epOut1) [wDataFail] =
      (Effect.selectWait SELECT_TIMEOUT_MS ::
         Effect.readMaster PTY_READ_CHUNK ::
         Effect.usbWrite [1, 2] USB_WRITE_TIMEOUT ::
         Effect.logUsbWriteError ::
         (_pty_writer_loop false (some epOut1) []).1,
       (_pty_writer_loop false (some epOut1) []).2)) :=
  ⟨(C8_theorem (some epOut1) epOut1 wNotReady [] [] rfl).2.2.2.1 rfl,
   (C8_theorem (some epOut1) epOut1 wEof [] [] rfl).2.2.2.2.1 rfl rfl,
   (C8_theorem (some epOut1) epOut1 wData [] [1, 2] rfl).2.2.2.2.2.1
     rfl rfl (by decide) rfl,
   (C8_theorem (some epOut1) epOut1 wDataFail [] [1, 2] rfl).2.2.2.2.2.2
     rfl rfl (by decide) rfl⟩

lemma start_flag_preserved (env : Env) (script : List WriterEvent)
    (s : BridgeState) (h : s.should_stop = true) :
    (start env script s).1.should_stop = true := by
  rcases hf : find_endpoints env s with e | s1
  · rw [start_find_error env script s e hf]
    exact h
  · have hfs := (find_preserves env s s1 hf).1
    by_cases hb : (s1.out_ep.isNone && s1.in_ep.isNone) = true
    · rw [start_no_endpoints env script s s1 hf hb]
      rw [hfs]
      exact h
    · have hb' : (s1.out_ep.isNone && s1.in_ep.isNone) = false := by
        cases hx : (s1.out_ep.isNone && s1.in_ep.isNone) with
        | false => rfl
        | true => exact absurd hx hb
      by_cases hc : env.claimSucceeds
      · rcases hp : env.ptyResult with _ | ⟨m, sl, path⟩
        · rw [start_pty_error env script s s1 hf hb' hc hp]
          rw [(claim_preserves env s1).1, hfs]
          exact h
        · rw [start_success env script s s1 m sl path hf hb' hc hp]
          simp only []
          split
          · rw [show ({ (_claim env s1).1 with master_fd := some m, slave_name := some path } : BridgeState).should_stop = (_claim env s1).1.should_stop from rfl]
            rw [(claim_preserves env s1).1, hfs]
            exact h
          · exact stop_flag env _
      · have hc' : env.claimSucceeds = false := by simpa using hc
        rw [start_claim_error env script s s1 hf hb' hc']
        rw [(claim_preserves env s1).1, hfs]
        exact h

/-- C9: the stop flag is monotonic and irreversible — a freshly
constructed session starts with the flag clear, `stop` always sets it,
and no operation of the session (`_find_endpoints`, `_claim`,
`_create_pty`, `_release`, `stop`, `start`) ever clears a set flag, so a
stopped session can never return to running; only constructing a new
state (`initState`) yields a clear flag. -/
theorem C9_theorem :
    initState.should_stop = false ∧
    (∀ env : Env, ∀ s : BridgeState, (stop env s).1.should_stop = true) ∧
    (∀ env : Env, ∀ script : List WriterEvent, ∀ s : BridgeState,
      s.should_stop = true →
      (∀ s1, find_endpoints env s = Except.ok s1 → s1.should_stop = true) ∧
      (_claim env s).1.should_stop = true ∧
      (_create_pty env s).1.should_stop = true ∧
      (_release env s).1.should_stop = true ∧
      (stop env s).1.should_stop = true ∧
      (start env script s).1.should_stop = true) := by
  refine ⟨rfl, fun env s => stop_flag env s, fun env script s h => ?_⟩
  refine ⟨?_, ?_, ?_, ?_, stop_flag env s, start_flag_preserved env script s h⟩
  · intro s1 h1
    rw [(find_preserves env s s1 h1).1]
    exact h
  · rw [(claim_preserves env s).1]
    exact h
  · rw [(pty_preserves env s).1]
    exact h
  · rw [release_state]
    exact h

/-- C9 witness: at a concrete stopped state every operation leaves the
flag set, and the fresh state has it clear. -/
theorem C9_witness :
    initState.should_stop = false ∧
    (stop envOk initState).1.should_stop = true ∧
    ((_claim envOk { initState with should_stop := true }).1.should_stop = true ∧
      (start envOk [] { initState with should_stop := true }).1.should_stop = true) :=
  ⟨C9_theorem.1, C9_theorem.2.1 envOk initState,
   (C9_theorem.2.2 envOk [] { initState with should_stop := true } rfl).2.1,
   (C9_theorem.2.2 envOk [] { initState with should_stop := true } rfl).2.2.2.2.2⟩

lemma bool_not_true {b : Bool} (h : ¬ b = true) : b = false := by
  cases b with
  | false => rfl
  | true => exact absurd rfl h

/-- C4: endpoint resolution selects the first interface of the active
configuration with class 7, falling back to the head interface
(`cfg[(0,0)]`) when none matches; the scan keeps the last-seen OUT and
the last-seen IN endpoint; and `start` fails with `NoEndpointsFound`
exactly when both are absent after the scan. -/
theorem C4_theorem :
    (∀ cfg : List Interface, ∀ i : Interface,
      cfg.find? (fun j => j.bInterfaceClass == 7) = some i →
      selectInterface cfg = some i) ∧
    (∀ cfg : List Interface, (∀ j ∈ cfg, j.bInterfaceClass ≠ 7) →
      selectInterface cfg = cfg.head?) ∧
    (∀ eps : List Endpoint,
      scanEndpoints eps =
        (eps.reverse.find? isOutEp, eps.reverse.find? isInEp)) ∧
    (∀ env : Env, ∀ script : List WriterEvent, ∀ s s1 : BridgeState,
      find_endpoints env s = Except.ok s1 →
      ((start env script s).2.2 = Except.error BridgeErr.noEndpointsFound ↔
        (s1.out_ep = none ∧ s1.in_ep = none))) := by
  refine ⟨?_, ?_, scanEndpoints_eq, ?_⟩
  · intro cfg i h
    unfold selectInterface
    rw [h]
  · intro cfg hmem
    have hnone : cfg.find? (fun j => j.bInterfaceClass == 7) = none := by
      rw [List.find?_eq_none]
      intro x hx
      simpa using hmem x hx
    unfold selectInterface
    rw [hnone]
  · intro env script s s1 h
    constructor
    · intro hs
      by_cases hb : (s1.out_ep.isNone && s1.in_ep.isNone) = true
      · rw [Bool.and_eq_true] at hb
        exact ⟨Option.isNone_iff_eq_none.mp hb.1,
          Option.isNone_iff_eq_none.mp hb.2⟩
      · exfalso
        have hb' := bool_not_true hb
        by_cases hc : env.claimSucceeds
        · rcases hp : env.ptyResult with _ | ⟨m, sl, path⟩
          · rw [start_pty_error env script s s1 h hb' hc hp] at hs
            simp at hs
          · rw [start_success env script s s1 m sl path h hb' hc hp] at hs
            simp only [] at hs
            split at hs <;> simp at hs
        · rw [start_claim_error env script s s1 h hb' (bool_not_true hc)] at hs
          simp at hs
    · rintro ⟨h1, h2⟩
      rw [start_no_endpoints env script s s1 h (by simp [h1, h2])]

/-- C4 witness: the class-7 interface is selected when first matching, a
configuration of non-printer interfaces falls back to its head, the scan
of a two-endpoint list keeps the last-seen of each direction, and the
endpoint-free device makes `start` fail with `NoEndpointsFound`. -/
theorem C4_witness :
    selectInterface [intfPrinter] = some intfPrinter ∧
    selectInterface [intfVendor] = [intfVendor].head? ∧
    scanEndpoints [epOut1, epIn129] =
      ([epOut1, epIn129].reverse.find? isOutEp,
       [epOut1, epIn129].reverse.find? isInEp) ∧
    ((start envNoEps [] initState).2.2 =
        Except.error BridgeErr.noEndpointsFound ↔
      (s1NoEps.out_ep = none ∧ s1NoEps.in_ep = none)) :=
  ⟨C4_theorem.1 [intfPrinter] intfPrinter rfl,
   C4_theorem.2.1 [intfVendor] (by decide),
   C4_theorem.2.2.1 [epOut1, epIn129],
   C4_theorem.2.2.2 envNoEps [] initState s1NoEps rfl⟩

/-- C5: on every successful `start` the USB-read forwarding thread is
launched if and only if an inbound endpoint was resolved, while control
always enters the terminal-read forwarding loop; with no outbound
endpoint the writer loop never performs a USB write, and every nonempty
chunk read from the terminal is discarded with a logged warning while
the loop continues. -/
theorem C5_theorem :
    (∀ env : Env, ∀ script : List WriterEvent, ∀ s : BridgeState,
      (start env script s).2.2 = Except.ok () →
      ((Effect.startUsbReaderThread ∈ (start env script s).2.1 ↔
         (start env script s).1.in_ep.isSome = true) ∧
       Effect.enterPtyWriterLoop ∈ (start env script s).2.1)) ∧
    (∀ stop0 : Bool, ∀ script : List WriterEvent, ∀ bs : List Nat, ∀ t : Nat,
      Effect.usbWrite bs t ∉ (_pty_writer_loop stop0 none script).1) ∧
    (∀ ev : WriterEvent, ∀ rest : List WriterEvent, ∀ bs : List Nat,
      ev.stopFlagSet = false → ev.selectReady = true →
      ev.readOutcome = PtyReadOutcome.data bs → bs ≠ [] →
      _pty_writer_loop false none (ev :: rest) =
        (Effect.selectWait SELECT_TIMEOUT_MS ::
           Effect.readMaster PTY_READ_CHUNK ::
           Effect.logDiscardNoOut ::
           (_pty_writer_loop false none rest).1,
         (_pty_writer_loop false none rest).2)) := by
  refine ⟨?_, fun stop0 script bs t => writer_none_no_usbWrite stop0 script bs t, ?_⟩
  · intro env script s hok
    rcases hf : find_endpoints env s with e | s1
    · rw [start_find_error env script s e hf] at hok
      simp at hok
    · by_cases hb : (s1.out_ep.isNone && s1.in_ep.isNone) = true
      · rw [start_no_endpoints env script s s1 hf hb] at hok
        simp at hok
      · have hb' := bool_not_true hb
        by_cases hc : env.claimSucceeds
        · rcases hp : env.ptyResult with _ | ⟨m, sl, path⟩
          · rw [start_pty_error env script s s1 hf hb' hc hp] at hok
            simp at hok
          · rw [start_success env script s s1 m sl path hf hb' hc hp]
            simp only []
            have hcth := (claim_effects_not_mem env s1).1
            have hcpw := (claim_effects_not_mem env s1).2.1
            have hw := writer_no_launch_effects
              ((_claim env s1).1).should_stop ((_claim env s1).1).out_ep script
            split
            · constructor
              · by_cases hin : ((_claim env s1).1).in_ep.isSome = true <;>
                  simp [hin, hcth, hw.1]
              · simp [hcpw, hw.2]
            · constructor
              · by_cases hin : ((_claim env s1).1).in_ep.isSome = true <;>
                  simp [hin, hcth, hw.1, stop_no_launch_effects,
                    stop_preserves_eps]
              · simp [hcpw, hw.2, stop_no_launch_effects]
        · rw [start_claim_error env script s s1 hf hb' (bool_not_true hc)] at hok
          simp at hok
  · intro ev rest bs hf hsel hro hbs
    simp [_pty_writer_loop, hf, hsel, hro, List.isEmpty_iff, hbs]

/-- C5 witness: on the all-good environment the reader thread launches
iff the resolved inbound endpoint exists and control enters the writer
loop; a concrete chunk on an endpoint-less session is discarded with the
warning and no USB write occurs. -/
theorem C5_witness :
    ((Effect.startUsbReaderThread ∈ (start envOk [] initState).2.1 ↔
       (start envOk [] initState).1.in_ep.isSome = true) ∧
     Effect.enterPtyWriterLoop ∈ (start envOk [] initState).2.1) ∧
    Effect.usbWrite [1, 2] USB_WRITE_TIMEOUT ∉
      (_pty_writer_loop false none [wData]).1 ∧
    _pty_writer_loop false none [wData] =
      (Effect.selectWait SELECT_TIMEOUT_MS ::
         Effect.readMaster PTY_READ_CHUNK ::
         Effect.logDiscardNoOut ::
         (_pty_writer_loop false none []).1,
       (_pty_writer_loop false none []).2) :=
  ⟨C5_theorem.1 envOk [] initState rfl,
   C5_theorem.2.1 false [wData] [1, 2] USB_WRITE_TIMEOUT,
   C5_theorem.2.2 wData [] [1, 2] rfl rfl rfl (by decide)⟩

/-- C1 counterexample: with a successful interface claim and a failing
`pty.openpty`, `start` propagates `PtyAllocationFailed` without ever
invoking the release path — the trace of `start` contains no
`releaseInterface`, refuting the claim that the release happens before
the error propagates out of `start`. -/
theorem C1_counterexample :
    (start envPtyFail [] initState).2.2 =
      Except.error BridgeErr.ptyAllocationFailed ∧
    Effect.releaseInterface ∉ (start envPtyFail [] initState).2.1 :=
  ⟨rfl, by decide⟩

/-- C1 (amended): when pseudo-terminal provisioning fails after a
successful claim, `start` propagates the provisioning error with the
USB interface claim still held (no `releaseInterface` in its trace);
the claim is released only when the caller afterwards invokes `stop`
on the session (as the CLI layer does on a `start` failure). -/
theorem C1_theorem (env : Env) (script : List WriterEvent)
    (s s1 : BridgeState) (h : find_endpoints env s = Except.ok s1)
    (hb : s1.out_ep.isSome = true ∨ s1.in_ep.isSome = true)
    (hc : env.claimSucceeds = true) (hp : env.ptyResult = none)
    (hss : s.should_stop = false) :
    (start env script s).2.2 = Except.error BridgeErr.ptyAllocationFailed ∧
    Effect.releaseInterface ∉ (start env script s).2.1 ∧
    Effect.releaseInterface ∈ (stop env (start env script s).1).2 := by
  have hb' : (s1.out_ep.isNone && s1.in_ep.isNone) = false := by
    rcases hb with hb | hb
    · rcases ho : s1.out_ep with _ | x
      · rw [ho] at hb
        simp at hb
      · simp [ho]
    · rcases hi : s1.in_ep with _ | x
      · rw [hi] at hb
        simp at hb
      · simp [hi]
  rw [start_pty_error env script s s1 h hb' hc hp]
  refine ⟨rfl, ?_, ?_⟩
  · exact (claim_effects_not_mem env s1).2.2
  · apply release_mem_stop
    rw [(claim_preserves env s1).1, (find_preserves env s s1 h).1, hss]

/-- C1 witness: the amended behaviour on the concrete failing-PTY
environment. -/
theorem C1_witness :
    (start envPtyFail [] initState).2.2 =
      Except.error BridgeErr.ptyAllocationFailed ∧
    Effect.releaseInterface ∉ (start envPtyFail [] initState).2.1 ∧
    Effect.releaseInterface ∈
      (stop envPtyFail (start envPtyFail [] initState).1).2 :=
  C1_theorem envPtyFail [] initState s1Resolved rfl (Or.inl rfl) rfl rfl rfl

end Bridge
